import Mathlib

/-!
A shallow embedding, in Lean 4, of the parts of the RestGPT repository that
the verified claims are about: the Python string utilities used by
`src/utils/utils.py` (`fix_json_error`, `get_matched_endpoint`), the JSON
decoding they rely on (`json.loads`), the Caller turn machinery of
`src/model/caller.py` (`_get_action_and_input`, `_get_response`, the `_call`
turn loop), the orchestrator loop of `src/model/rest_gpt.py`, the scenario
normalization of `RestGPT.__init__`, the code-assisted response parsing
control flow of `src/model/parser.py`, and the catalog reduction of
`src/utils/oas_utils.py` (`reduce_endpoint_docs`, `reduce_openapi_spec`).

External effects (the LLM completion service, HTTP requests, generated-code
execution, the tokenizer) are modelled as oracle parameters; everything else
is translated from the source, statement by statement.
-/

namespace RestGPT

/-- The Python exception kinds that the modelled code can raise. -/
inductive PyErr where
  | indexError
  | keyError (k : String)
  | jsonDecode
  | valueError (msg : String)
  | notImplemented
  | attributeError
  | typeError
  | nameError
  | runtimeError (msg : String)
  | recursionError
  deriving DecidableEq, Repr

/-- Decidable equality of `Except` results, used to settle concrete runs
of the modelled functions by `decide`. -/
instance {ε α : Type} [DecidableEq ε] [DecidableEq α] :
    DecidableEq (Except ε α) := fun a b =>
  match a, b with
  | Except.ok x, Except.ok y =>
    if h : x = y then Decidable.isTrue (by rw [h])
    else Decidable.isFalse (by simp [h])
  | Except.error x, Except.error y =>
    if h : x = y then Decidable.isTrue (by rw [h])
    else Decidable.isFalse (by simp [h])
  | Except.ok _, Except.error _ => Decidable.isFalse (by simp)
  | Except.error _, Except.ok _ => Decidable.isFalse (by simp)

/-! ## Python string primitives

The helpers below reproduce, over `List Char`/`String`, the exact Python
string operations the source uses: `str.strip` (with and without an argument
set), `str.split`, `str.endswith`, substring search (`in`, `find`, `rfind`),
and slicing. -/

/-- The characters Python's argumentless `str.strip` removes (ASCII range;
the source never feeds non-ASCII whitespace through these paths). -/
def pyWsChars : List Char := [' ', '\t', '\n', '\r', '\x0b', '\x0c']

/-- Python regex `\s` / `str.strip()` whitespace test (ASCII range). -/
def isPyWs (c : Char) : Bool := pyWsChars.contains c

/-- Remove the trailing run of characters satisfying `p`. -/
def dropTrailing (p : Char → Bool) (l : List Char) : List Char :=
  (l.reverse.dropWhile p).reverse

/-- Python `s.strip()` on a character list. -/
def pyStripList (l : List Char) : List Char :=
  dropTrailing isPyWs (l.dropWhile isPyWs)

/-- Python `s.strip()`. -/
def pyStrip (s : String) : String := String.mk (pyStripList s.data)

/-- Python `s.strip(chars)`: remove leading and trailing characters drawn
from the given set. -/
def pyStripChars (cs : List Char) (s : String) : String :=
  String.mk (dropTrailing (cs.contains ·) (s.data.dropWhile (cs.contains ·)))

/-- Is `pat` a prefix of `hay`? (Both as raw character lists.) -/
def listPre (pat hay : List Char) : Bool :=
  match pat with
  | [] => true
  | p :: ps =>
    match hay with
    | [] => false
    | h :: hs => if p == h then listPre ps hs else false

/-- Python `pat in hay` substring test, on character lists. -/
def containsSubList (pat : List Char) : List Char → Bool
  | [] => listPre pat []
  | c :: cs => listPre pat (c :: cs) || containsSubList pat cs

/-- Python `pat in hay` substring test. -/
def strContains (hay pat : String) : Bool := containsSubList pat.data hay.data

/-- Index of the first occurrence of `pat` in the list, if any
(Python `str.find` when it does not return `-1`). -/
def firstIdxOfSub (pat : List Char) : List Char → Option Nat
  | [] => if listPre pat [] then some 0 else none
  | c :: cs =>
    if listPre pat (c :: cs) then some 0
    else (firstIdxOfSub pat cs).map (· + 1)

/-- Index of the last occurrence of `pat` in the list, if any. -/
def lastIdxOfSub (pat : List Char) (l : List Char) : Option Nat :=
  match l with
  | [] => if listPre pat [] then some 0 else none
  | c :: cs =>
    match lastIdxOfSub pat cs with
    | some i => some (i + 1)
    | none => if listPre pat (c :: cs) then some 0 else none

/-- The text after the last occurrence of `pat` in `s`
(Python `s.split(pat)[-1]`; for the patterns used in the source, which have
no self-overlap, the two notions coincide).  When `pat` does not occur the
whole string is returned, again as in Python. -/
def afterLastSub (s pat : String) : String :=
  match lastIdxOfSub pat.data s.data with
  | some i => String.mk (s.data.drop (i + pat.data.length))
  | none => s

/-- Python `s.split(sep)` for a single-character separator:
`"".split(sep)` gives `[""]`, and separators at the ends give empty
pieces. -/
def splitOnCharList (sep : Char) : List Char → List (List Char)
  | [] => [[]]
  | c :: cs =>
    let r := splitOnCharList sep cs
    if c == sep then [] :: r
    else
      match r with
      | h :: t => (c :: h) :: t
      | [] => [[c]]

/-- Python `s.split("\n")`. -/
def splitLines (s : String) : List String :=
  (splitOnCharList '\n' s.data).map String.mk

/-- Python `s.split(sep)` for a single-character separator, on strings. -/
def pySplitChar (sep : Char) (s : String) : List String :=
  (splitOnCharList sep s.data).map String.mk

/-- Python `s.endswith(c)` for a single-character suffix. -/
def endsWithChar (s : String) (c : Char) : Bool :=
  match s.data.getLast? with
  | some l => l == c
  | none => false

/-- Python `s.endswith(tuple_of_single_chars)`. -/
def endsWithAnyChar (s : String) (cs : List Char) : Bool :=
  match s.data.getLast? with
  | some l => cs.contains l
  | none => false

/-- Python `s[:-1]` on a string known (at call sites) to be nonempty. -/
def dropLastChar (s : String) : String := String.mk s.data.dropLast

/-- Opening brace character, `0x7b`. -/
def obrace : Char := Char.ofNat 123

/-- Closing brace character, `0x7d`. -/
def cbrace : Char := Char.ofNat 125

/-- Backtick character, `0x60`. -/
def btick : Char := Char.ofNat 96

/-- Python slicing `s[a:b]` with possibly negative `Int` endpoints, as used
by `Caller._get_response` where `str.find`/`str.rfind` may give `-1`. -/
def pySliceInt (s : String) (a b : Int) : String :=
  let n : Int := s.data.length
  let norm : Int → Nat := fun i =>
    if i < 0 then (max (n + i) 0).toNat else (min i n).toNat
  let lo := norm a
  let hi := norm b
  String.mk ((s.data.take hi).drop lo)

/-! ## JSON values and `json.loads`

`JVal` is the decoded-JSON value universe the repository manipulates
(`dict`/`list`/`str`/number/bool/`None` after `json.loads`).  Numbers keep
their raw lexeme: the claims only ever compare small integer literals, and
keeping the lexeme avoids inventing a float semantics the source does not
depend on.  Object keys are `JKey` rather than plain strings so that the
`200 in docs["responses"]` integer-key membership test of
`src/utils/oas_utils.py` can be written as in the source (JSON-decoded
documents only ever produce string keys). -/

/-- A Python dict key as used by the modelled code: a string or an int. -/
inductive JKey where
  | s (v : String)
  | i (v : Int)
  deriving DecidableEq, Repr

/-- A decoded JSON value (= the Python value `json.loads` returns). -/
inductive JVal where
  | null
  | bool (b : Bool)
  | num (lexeme : String)
  | str (s : String)
  | arr (elems : List JVal)
  | obj (fields : List (JKey × JVal))

/-- Python `dict.get`: the value stored under `k`, if present. -/
def dictGet (d : List (JKey × JVal)) (k : JKey) : Option JVal :=
  match d.find? (fun p => p.1 == k) with
  | some p => some p.2
  | none => none

/-- Python `k in dict`. -/
def dictHasKey (d : List (JKey × JVal)) (k : JKey) : Bool :=
  d.any (fun p => p.1 == k)

/-- Python dict insertion: overwriting an existing key keeps its position,
a new key is appended. -/
def dictInsert (d : List (JKey × JVal)) (k : JKey) (v : JVal) :
    List (JKey × JVal) :=
  if dictHasKey d k then
    d.map (fun p => if p.1 == k then (k, v) else p)
  else d ++ [(k, v)]

/-- JSON structural whitespace accepted by `json.loads` (space, tab,
newline, carriage return as code points). -/
def isJsonWs (c : Char) : Bool :=
  let n := c.toNat
  n == 32 || n == 9 || n == 10 || n == 13

/-- Hex digit value, if `c` is a hex digit (working on the code point to
cover the three ASCII ranges). -/
def hexVal (c : Char) : Option Nat :=
  let n := c.toNat
  if 48 ≤ n ∧ n ≤ 57 then some (n - 48)
  else if 97 ≤ n ∧ n ≤ 102 then some (n - 87)
  else if 65 ≤ n ∧ n ≤ 70 then some (n - 55)
  else none

/-- Body of a JSON string literal, after the opening quote: returns the
decoded characters and the input remaining after the closing quote.
Rejects unescaped control characters (strict mode) and unknown escapes,
as `json.loads` does. -/
def parseStrBody : List Char → Option (List Char × List Char)
  | [] => none
  | '"' :: rest => some ([], rest)
  | '\\' :: e :: rest =>
    let simple : Option Char :=
      if e == '"' then some '"'
      else if e == '\\' then some '\\'
      else if e == '/' then some '/'
      else if e == 'b' then some '\x08'
      else if e == 'f' then some '\x0c'
      else if e == 'n' then some '\n'
      else if e == 'r' then some '\r'
      else if e == 't' then some '\t'
      else none
    match simple with
    | some c =>
      match parseStrBody rest with
      | some (cs, rem) => some (c :: cs, rem)
      | none => none
    | none =>
      if e == 'u' then
        match rest with
        | h1 :: h2 :: h3 :: h4 :: rest2 =>
          match hexVal h1, hexVal h2, hexVal h3, hexVal h4 with
          | some a, some b, some c, some d =>
            let code := ((a * 16 + b) * 16 + c) * 16 + d
            match parseStrBody rest2 with
            | some (cs, rem) => some (Char.ofNat code :: cs, rem)
            | none => none
          | _, _, _, _ => none
        | _ => none
      else none
  | c :: rest =>
    if c.toNat < 32 then none
    else
      match parseStrBody rest with
      | some (cs, rem) => some (c :: cs, rem)
      | none => none

/-- Decimal digit test. -/
def isDigitCh (c : Char) : Bool := '0' ≤ c && c ≤ '9'

/-- A JSON number lexeme starting at the head of the input, if the grammar
`-? (0 | [1-9][0-9]*) (. [0-9]+)? ([eE][+-]? [0-9]+)?` accepts one; returns
the lexeme and the rest. -/
def parseNumLex (l : List Char) : Option (List Char × List Char) :=
  let (neg, l1) :=
    match l with
    | '-' :: t => (['-'], t)
    | _ => (([] : List Char), l)
  match l1 with
  | [] => none
  | c :: _ =>
    if !isDigitCh c then none
    else
      let intPart :=
        if c == '0' then ['0']
        else l1.takeWhile isDigitCh
      let l2 := l1.drop intPart.length
      let (fracPart, l3) :=
        match l2 with
        | '.' :: t =>
          let ds := t.takeWhile isDigitCh
          if ds.isEmpty then (([] : List Char), l2)
          else ('.' :: ds, t.drop ds.length)
        | _ => (([] : List Char), l2)
      -- a dot not followed by digits makes the whole literal invalid JSON
      match l2, fracPart with
      | '.' :: _, [] => none
      | _, _ =>
        let (expPart, l4) :=
          match l3 with
          | e :: t =>
            if e == 'e' || e == 'E' then
              let (sgn, t1) :=
                match t with
                | '+' :: t2 => (['+'], t2)
                | '-' :: t2 => (['-'], t2)
                | _ => (([] : List Char), t)
              let ds := t1.takeWhile isDigitCh
              if ds.isEmpty then (([] : List Char), l3)
              else (e :: (sgn ++ ds), t1.drop ds.length)
            else (([] : List Char), l3)
          | [] => (([] : List Char), l3)
        match l3, expPart with
        | e :: _, [] =>
          if e == 'e' || e == 'E' then none
          else some (neg ++ intPart ++ fracPart, l3)
        | _, _ => some (neg ++ intPart ++ fracPart ++ expPart, l4)

mutual

/-- One JSON value starting at the head of the (whitespace-skipped) input.
Fuel-indexed to make the nesting recursion structural; `pyJsonLoads` supplies
fuel ample for any input of its length. -/
def parseVal : Nat → List Char → Option (JVal × List Char)
  | 0, _ => none
  | Nat.succ f, l =>
    match l.dropWhile isJsonWs with
    | [] => none
    | '"' :: rest =>
      match parseStrBody rest with
      | some (cs, rem) => some (JVal.str (String.mk cs), rem)
      | none => none
    | '[' :: rest => parseArrItems f rest
    | c :: rest =>
      if c == obrace then parseObjItems f rest []
      else
        let l1 := c :: rest
        if listPre ['t', 'r', 'u', 'e'] l1 then
          some (JVal.bool true, l1.drop 4)
        else if listPre ['f', 'a', 'l', 's', 'e'] l1 then
          some (JVal.bool false, l1.drop 5)
        else if listPre ['n', 'u', 'l', 'l'] l1 then
          some (JVal.null, l1.drop 4)
        else
          match parseNumLex l1 with
          | some (lex, rem) => some (JVal.num (String.mk lex), rem)
          | none => none

/-- The items of a JSON array, after the opening bracket. -/
def parseArrItems : Nat → List Char → Option (JVal × List Char)
  | 0, _ => none
  | Nat.succ f, l =>
    match l.dropWhile isJsonWs with
    | ']' :: rest => some (JVal.arr [], rest)
    | l1 =>
      match parseArrRest f l1 [] with
      | some (vs, rem) => some (JVal.arr vs, rem)
      | none => none

/-- One array item followed by either a comma and more items or the
closing bracket. -/
def parseArrRest : Nat → List Char → List JVal → Option (List JVal × List Char)
  | 0, _, _ => none
  | Nat.succ f, l, acc =>
    match parseVal f l with
    | none => none
    | some (v, rem) =>
      match rem.dropWhile isJsonWs with
      | ']' :: rest => some (acc ++ [v], rest)
      | ',' :: rest => parseArrRest f rest (acc ++ [v])
      | _ => none

/-- The fields of a JSON object, after the opening brace; duplicate keys
overwrite as Python dicts do. -/
def parseObjItems : Nat → List Char → List (JKey × JVal) →
    Option (JVal × List Char)
  | 0, _, _ => none
  | Nat.succ f, l, acc =>
    match l.dropWhile isJsonWs with
    | [] => none
    | c :: rest =>
      if c == cbrace && acc.isEmpty then some (JVal.obj [], rest)
      else if c == '"' then
        match parseStrBody rest with
        | none => none
        | some (kcs, rem1) =>
          match rem1.dropWhile isJsonWs with
          | ':' :: rem2 =>
            match parseVal f rem2 with
            | none => none
            | some (v, rem3) =>
              let acc1 := dictInsert acc (JKey.s (String.mk kcs)) v
              match rem3.dropWhile isJsonWs with
              | ',' :: rem4 => parseObjItems f rem4 acc1
              | d :: rem4 =>
                if d == cbrace then some (JVal.obj acc1, rem4) else none
              | [] => none
          | _ => none
      else none

end

/-- `json.loads`: decode a complete JSON document, requiring the whole
input to be consumed (up to trailing whitespace). `none` is Python's
`json.decoder.JSONDecodeError`. -/
def pyJsonLoads (s : String) : Option JVal :=
  match parseVal (2 * s.data.length + 4) s.data with
  | some (v, rest) => if (rest.dropWhile isJsonWs).isEmpty then some v else none
  | none => none

/-! ## `src/utils/utils.py` — `fix_json_error` -/

/-- The initial trimming chain of `fix_json_error`
(`data.strip().strip(quote).strip(",").strip(backtick)`). -/
def fixJsonTrim (data : String) : String :=
  pyStripChars [btick] (pyStripChars [','] (pyStripChars ['"'] (pyStrip data)))

/-- The closing-line sentinel list of `fix_json_error`
(`[']', '...', '],', '...,']` with braces). -/
def closerLines : List String :=
  ["]", String.mk [cbrace], "],", String.mk [cbrace, ',']]

/-- The bracket-only-line sentinel list (`['[', ']', '...', '...']`). -/
def bracketLines : List String :=
  ["[", "]", String.mk [obrace], String.mk [cbrace]]

/-- The line-repair loop of `fix_json_error`.  Each step looks at the
current (stripped) line and the next one: appending a comma, or removing a
trailing comma before a closing line; reading past the final element raises
`IndexError`, exactly as `data[i + 1]` does in the source (both `if`
conditions of the loop body evaluate `data[i + 1]` whenever the line is not
bracket-shaped). -/
def fixLoop : List String → Except PyErr (List String)
  | [] => Except.ok []
  | [line] =>
    if bracketLines.contains line then Except.ok [line]
    else if endsWithAnyChar line ['[', ']', obrace, cbrace] then
      Except.ok [line]
    else Except.error PyErr.indexError
  | line :: nxt :: rest =>
    if bracketLines.contains line then
      (fun t => line :: t) <$> fixLoop (nxt :: rest)
    else if endsWithAnyChar line ['[', ']', obrace, cbrace] then
      (fun t => line :: t) <$> fixLoop (nxt :: rest)
    else
      let l1 :=
        if !endsWithChar line ',' && !closerLines.contains nxt then
          line ++ ","
        else line
      let l2 :=
        if closerLines.contains nxt && endsWithChar line ',' then
          dropLastChar line
        else l1
      (fun t => l2 :: t) <$> fixLoop (nxt :: rest)

/-- `fix_json_error(data)` with the default `return_str=True` (the only
form the repository calls): trim, return unchanged if it already parses as
JSON, otherwise strip each line, run the repair loop and reassemble with
single spaces. -/
def fix_json_error (data : String) : Except PyErr String :=
  let d := fixJsonTrim data
  match pyJsonLoads d with
  | some _ => Except.ok d
  | none =>
    let ls := (splitLines d).map pyStrip
    match fixLoop ls with
    | Except.ok ls1 => Except.ok (String.intercalate " " ls1)
    | Except.error e => Except.error e

/-! ## `src/utils/utils.py` — `get_matched_endpoint`

The scan pattern is `\b(GET|POST|PATCH|DELETE|PUT)\s+(/\S+)*`.  Because
`\S+` is greedy and a slash is itself a non-space character, the starred
group can never match a second repetition (the first swallows every
following non-space character, slashes included), so `re.findall` yields,
per match, the method and either the maximal non-space run starting with a
slash right after the whitespace or the empty string (unset group). -/

/-- The HTTP methods of the scan pattern, in alternation order. -/
def scanMethods : List String := ["GET", "POST", "PATCH", "DELETE", "PUT"]

/-- Python regex word character (`\w`), ASCII range (letters as code
points, digits, underscore). -/
def isWordChar (c : Char) : Bool :=
  let n := c.toNat
  (97 ≤ n && n ≤ 122) || (65 ≤ n && n ≤ 90) || isDigitCh c || n == 95

/-- Try to match `\b(METHOD)\s+(/\S+)*` at the current position, given the
previous character (for the word boundary).  Returns the two captured
groups, the last character the match consumed, and the input remaining
after the match. -/
def matchCallAt (prev : Option Char) (l : List Char) :
    Option (String × String × Char × List Char) :=
  let boundary :=
    match prev with
    | none => true
    | some p => !isWordChar p
  if !boundary then none
  else
    match scanMethods.find? (fun m => listPre m.data l) with
    | none => none
    | some m =>
      let r1 := l.drop m.data.length
      let ws := r1.takeWhile isPyWs
      if ws.isEmpty then none
      else
        let r2 := r1.drop ws.length
        match r2 with
        | '/' :: t =>
          let run := t.takeWhile (fun c => !isPyWs c)
          if run.isEmpty then some (m, "", ws.getLastD ' ', r2)
          else
            some (m, String.mk ('/' :: run), run.getLastD '/', t.drop run.length)
        | _ => some (m, "", ws.getLastD ' ', r2)

/-- Left-to-right non-overlapping scan (`re.findall`) for the call pattern.
Fuel-indexed; every step consumes at least one character, so fuel equal to
the input length is ample. -/
def scanCalls : Nat → Option Char → List Char → List (String × String)
  | 0, _, _ => []
  | _, _, [] => []
  | Nat.succ f, prev, c :: cs =>
    match matchCallAt prev (c :: cs) with
    | some (m, route, lastCh, rest) => (m, route) :: scanCalls f (some lastCh) rest
    | none => scanCalls f (some c) cs

/-- The `re.findall` of `get_matched_endpoint` over the plan text. -/
def findallCalls (plan : String) : List (String × String) :=
  scanCalls plan.data.length none plan.data

/-- Python `route.split("?")[0]`: the prefix before the first question
mark. -/
def beforeQuery (route : String) : String :=
  String.mk (route.data.takeWhile (fun c => c != '?'))

/-- The `plan_endpoints` list of `get_matched_endpoint`:
`"METHOD route-without-query"` per scanned mention. -/
def planEndpointsOf (plan : String) : List String :=
  (findallCalls plan).map (fun p => p.1 ++ " " ++ beforeQuery p.2)

/-- One segment of a canonical endpoint name: literal text, or a `{param}`
placeholder (instantiated to the regex `[^/]+` by the source). -/
inductive NameSeg where
  | lit (s : List Char)
  | param
  deriving Repr

/-- Split a canonical name into literal and placeholder segments, the way
`re.findall(r"[.](.*?)[.]", name)` + `str.format` treat it: each brace pair
becomes a placeholder (lazily matched, so the first closing brace ends it).
Names are assumed well formed (every opening brace is closed), which holds
for every catalog the repository builds. -/
def nameSegs : Nat → List Char → List NameSeg
  | 0, _ => []
  | _, [] => []
  | Nat.succ f, c :: cs =>
    if c == obrace then
      let inside := cs.takeWhile (fun d => d != cbrace)
      NameSeg.param :: nameSegs f (cs.drop (inside.length + 1))
    else
      match nameSegs f cs with
      | NameSeg.lit s :: t => NameSeg.lit (c :: s) :: t
      | t => NameSeg.lit [c] :: t

/-- Does the instantiated template (literal segments as themselves,
placeholders as `[^/]+`) match the whole candidate?  This is
`re.match(name.format(...) + eol, plan_endpoint)` for names free of other
regex metacharacters — true of both shipped catalogs. -/
def segsMatch : Nat → List NameSeg → List Char → Bool
  | 0, _, _ => false
  | Nat.succ _, [], [] => true
  | Nat.succ _, [], _ :: _ => false
  | Nat.succ f, NameSeg.lit s :: segs, l =>
    if listPre s l then segsMatch f segs (l.drop s.length) else false
  | Nat.succ _, NameSeg.param :: _, [] => false
  | Nat.succ f, NameSeg.param :: segs, c :: cs =>
    if c == '/' then false
    else segsMatch f segs cs || segsMatch f (NameSeg.param :: segs) cs

/-- Template match of one candidate against one canonical name.  Both
recursions are fuel-indexed (each step consumes a segment or a character,
so the supplied fuel is ample). -/
def templateMatch (name : String) (planEndpoint : String) : Bool :=
  let segs := nameSegs (name.data.length + 1) name.data
  segsMatch (segs.length + planEndpoint.data.length + 1) segs planEndpoint.data

/-- `get_matched_endpoint(api_spec, plan)`, with the catalog given as its
list of canonical names (`[item[0] for item in api_spec.endpoints]`).
Returns `none` (Python `None`) when nothing matches. -/
def get_matched_endpoint (specEndpoints : List String) (plan : String) :
    Option (List String) :=
  let matched :=
    (planEndpointsOf plan).foldl
      (fun acc pe =>
        if specEndpoints.contains pe then acc ++ [pe]
        else
          match specEndpoints.find? (fun name => templateMatch name pe) with
          | some name => acc ++ [name]
          | none => acc)
      []
  if matched.isEmpty then none else some matched

/-! ## `src/model/caller.py` — `Caller._get_action_and_input`

The turn text is first checked for `"Execution Result:"`; otherwise the
regex `Operation:[\s]*(.*?)[\n]*Input:[\s]*(.*)` is searched with `DOTALL`.
`re.search` semantics for this pattern: the match starts at the first
occurrence of `Operation:` (a match exists iff some `Input:` follows it,
since the lazy dot-all group can absorb anything); the greedy `[\s]*` takes
the whole whitespace run (no occurrence of `Input:` can start inside it);
the lazy group then ends at the first following `Input:`, minus the run of
newlines `[\n]*` directly before it; and the second group is everything
after `Input:` and its following whitespace run, to the end of the text. -/

/-- The literal `"Operation:"` as characters. -/
def opLit : List Char := "Operation:".data

/-- The literal `"Input:"` as characters. -/
def inpLit : List Char := "Input:".data

/-- `re.search(r"Operation:[\s]*(.*?)[\n]*Input:[\s]*(.*)", s, re.DOTALL)`:
the two captured groups, when the pattern matches. -/
def regexOperationInput (s : String) : Option (String × String) :=
  match firstIdxOfSub opLit s.data with
  | none => none
  | some p =>
    let afterOp := s.data.drop (p + opLit.length)
    let k := (afterOp.takeWhile isPyWs).length
    let fromB := afterOp.drop k
    match firstIdxOfSub inpLit fromB with
    | none => none
    | some qrel =>
      let between := fromB.take qrel
      let nl := (between.reverse.takeWhile (fun c => c == '\n')).length
      let g1 := between.take (qrel - nl)
      let afterInput := fromB.drop (qrel + inpLit.length)
      let g2 := afterInput.drop (afterInput.takeWhile isPyWs).length
      some (String.mk g1, String.mk g2)

/-- Result of parsing one Caller LLM turn. -/
inductive ActionOrResult where
  | executionResult (res : String)
  | action (op : String) (input : String)
  deriving DecidableEq, Repr

/-- The methods `Caller._get_action_and_input` accepts (note: `PATCH` is
advertised in the prompt but absent here). -/
def allowedMethods : List String := ["GET", "POST", "DELETE", "PUT"]

/-- `Caller._get_action_and_input(llm_output)`: terminal turns return the
text after the last `"Execution Result:"`, stripped; otherwise the
Operation/Input shape is parsed, unsupported methods raise
`NotImplementedError`, and the input is passed through `fix_json_error`. -/
def get_action_and_input (llmOutput : String) : Except PyErr ActionOrResult :=
  if strContains llmOutput "Execution Result:" then
    Except.ok (ActionOrResult.executionResult
      (pyStrip (afterLastSub llmOutput "Execution Result:")))
  else
    match regexOperationInput llmOutput with
    | none =>
      Except.error (PyErr.valueError
        ("Could not parse LLM output: " ++ String.mk [btick] ++ llmOutput ++
          String.mk [btick]))
    | some (g1, g2) =>
      let action := pyStrip g1
      if !(allowedMethods.contains action) then Except.error PyErr.notImplemented
      else
        match fix_json_error g2 with
        | Except.ok inp => Except.ok (ActionOrResult.action action inp)
        | Except.error e => Except.error e

/-! ## `src/model/caller.py` — `Caller._get_response`

The HTTP layer (`langchain.requests.RequestsWrapper`) is an oracle: each
verb maps the url and the params/body values taken out of the parsed input
to either a `requests.models.Response` (status code and text), a plain
string, or something else.  `JVal.null` plays Python's `None`. -/

/-- What a `requests_wrapper` verb call can return. -/
inductive WrapperRet where
  | response (status : Nat) (text : String)
  | text (s : String)
  | other

/-- Oracle for the four HTTP verbs.  `get` takes `some params` when the
input JSON had a `params` key (the source only passes `params=` then);
the other verbs always pass both `params` and the body. -/
structure RequestsWrapper where
  get : JVal → Option JVal → WrapperRet
  post : JVal → JVal → JVal → WrapperRet
  put : JVal → JVal → JVal → WrapperRet
  delete : JVal → JVal → JVal → WrapperRet

/-- What `Caller._get_response` returns: the full five-value result on the
happy path, or — on a non-200 `requests` response — just the raw text
(`return response.text` at caller.py:234, a bare string where the caller
unpacks five values). -/
inductive GetResponseRet where
  | bare (s : String)
  | tuple (response : String) (params requestBody desc query : JVal)

/-- `Caller._get_response(action, action_input)` (caller.py:197-241). -/
def get_response (wrapper : RequestsWrapper) (action : String)
    (actionInput : String) : Except PyErr GetResponseRet :=
  let t0 := pyStripChars [btick] (pyStrip actionInput)
  let li : Int :=
    match firstIdxOfSub [obrace] t0.data with
    | some i => (i : Int)
    | none => -1
  let ri : Int :=
    match lastIdxOfSub [cbrace] t0.data with
    | some i => (i : Int)
    | none => -1
  let t := pySliceInt t0 li (ri + 1)
  match pyJsonLoads t with
  | none => Except.error PyErr.jsonDecode
  | some (JVal.obj data) =>
    let desc := (dictGet data (JKey.s "description")).getD (JVal.str "No description")
    let query := (dictGet data (JKey.s "output_instructions")).getD JVal.null
    let dispatch : Except PyErr (JVal × JVal × WrapperRet) :=
      if action = "GET" then
        let url := (dictGet data (JKey.s "url")).getD JVal.null
        if dictHasKey data (JKey.s "params") then
          let params := (dictGet data (JKey.s "params")).getD JVal.null
          Except.ok (params, JVal.null, wrapper.get url (some params))
        else
          Except.ok (JVal.null, JVal.null, wrapper.get url none)
      else if action = "POST" then
        let params := (dictGet data (JKey.s "params")).getD JVal.null
        let body := (dictGet data (JKey.s "data")).getD JVal.null
        match dictGet data (JKey.s "url") with
        | none => Except.error (PyErr.keyError "url")
        | some url => Except.ok (params, body, wrapper.post url params body)
      else if action = "PUT" then
        let params := (dictGet data (JKey.s "params")).getD JVal.null
        let body := (dictGet data (JKey.s "data")).getD JVal.null
        match dictGet data (JKey.s "url") with
        | none => Except.error (PyErr.keyError "url")
        | some url => Except.ok (params, body, wrapper.put url params body)
      else if action = "DELETE" then
        let params := (dictGet data (JKey.s "params")).getD JVal.null
        let body := (dictGet data (JKey.s "data")).getD JVal.null
        match dictGet data (JKey.s "url") with
        | none => Except.error (PyErr.keyError "url")
        | some url => Except.ok (params, body, wrapper.delete url params body)
      else Except.error PyErr.notImplemented
    match dispatch with
    | Except.error e => Except.error e
    | Except.ok (params, requestBody, ret) =>
      match ret with
      | WrapperRet.response status text =>
        if status ≠ 200 then Except.ok (GetResponseRet.bare text)
        else Except.ok (GetResponseRet.tuple text params requestBody desc query)
      | WrapperRet.text s =>
        Except.ok (GetResponseRet.tuple s params requestBody desc query)
      | WrapperRet.other => Except.error PyErr.notImplemented
  | some _ => Except.error PyErr.attributeError

/-- The five-way unpacking
`response, params, request_body, desc, query = self._get_response(...)`
at caller.py:290.  A Python string unpacks into its characters, so a bare
string result only unpacks when its length is exactly 5 — into five
one-character strings — and raises `ValueError` otherwise. -/
def unpack5 : GetResponseRet → Except PyErr (JVal × JVal × JVal × JVal × JVal)
  | GetResponseRet.tuple r p b d q => Except.ok (JVal.str r, p, b, d, q)
  | GetResponseRet.bare s =>
    match s.data with
    | [c1, c2, c3, c4, c5] =>
      Except.ok (JVal.str (String.mk [c1]), JVal.str (String.mk [c2]),
        JVal.str (String.mk [c3]), JVal.str (String.mk [c4]),
        JVal.str (String.mk [c5]))
    | _ => Except.error (PyErr.valueError "values to unpack")

/-! ## `src/model/caller.py` — the `Caller._call` turn loop

`llm` gives the raw text of each LLM turn (indexed by the turn number; the
scratchpad the source rebuilds each turn is a function of the turns before
it, so the index determines it).  `execute` abstracts what the body does
after a non-terminal turn parses — the HTTP dispatch, the endpoint
re-matching and the response-parser run of caller.py:290-327 — returning
the parser text appended to the history, or the exception that turn raised.
`max_execution_time` is `None` (its default, and the situation every claim
is about), so `_should_continue` only consults the iteration count. -/

/-- `Caller._should_continue` with `max_execution_time = None`. -/
def should_continue (maxIterations : Option Nat) (iterations : Nat) : Bool :=
  match maxIterations with
  | some m => decide (iterations < m)
  | none => true

/-- The turn loop of `Caller._call` (caller.py:282-332), fuel-indexed; the
fuel mirrors `max_iterations`, which also bounds the number of body
entries, so `caller_call` below supplies exactly that.  The second result
component counts completed loop iterations.  Exiting the loop with no turn
taken would read the unbound `caller_chain_output` (`NameError`). -/
def callerLoopGo (execute : Nat → String → String → Except PyErr String)
    (llm : Nat → String) (maxIterations : Nat) :
    Nat → Nat → Option String → Except PyErr (String × Nat)
  | 0, iterations, last =>
    match last with
    | some s => Except.ok (s, iterations)
    | none => Except.error PyErr.nameError
  | Nat.succ fuel, iterations, last =>
    if should_continue (some maxIterations) iterations then
      let out := llm iterations
      match get_action_and_input out with
      | Except.error e => Except.error e
      | Except.ok (ActionOrResult.executionResult res) => Except.ok (res, iterations)
      | Except.ok (ActionOrResult.action a inp) =>
        match execute iterations a inp with
        | Except.error e => Except.error e
        | Except.ok _ => callerLoopGo execute llm maxIterations fuel (iterations + 1) (some out)
    else
      match last with
      | some s => Except.ok (s, iterations)
      | none => Except.error PyErr.nameError

/-- `Caller._call` restricted to its turn loop, with `max_iterations` a
number (the claims set it explicitly; its default is 15). -/
def caller_call (execute : Nat → String → String → Except PyErr String)
    (llm : Nat → String) (maxIterations : Nat) : Except PyErr (String × Nat) :=
  callerLoopGo execute llm maxIterations maxIterations 0 none

/-! ## `src/model/rest_gpt.py` — scenario normalization and the
orchestrator loop -/

/-- The scenario normalization at the head of `RestGPT.__init__`
(rest_gpt.py:49-54). -/
def normalize_scenario (scenario : String) : Except PyErr String :=
  let s1 := if scenario = "TMDB" ∨ scenario = "Tmdb" then "tmdb" else scenario
  let s2 := if s1 = "Spotify" then "spotify" else s1
  if s2 ≠ "tmdb" ∧ s2 ≠ "spotify" then
    Except.error (PyErr.valueError ("Invalid scenario " ++ s2))
  else Except.ok s2

/-- `RestGPT._should_continue_plan`: `re.search("Continue", plan)`. -/
def should_continue_plan (plan : String) : Bool := strContains plan "Continue"

/-- `RestGPT._should_end`: `re.search("Final Answer", plan)`. -/
def should_end (plan : String) : Bool := strContains plan "Final Answer"

/-- The inner continuation loop of `RestGPT._call` (rest_gpt.py:165-180).
`planner` is the scripted Planner, indexed by how many times it has been
called; `idx` is that call counter; `innerCnt` counts inner-loop body
entries.  The API Selector and Caller calls inside the body influence
nothing the loop control reads (only the Planner text is inspected), so
they are not represented.  Returns the plan that ended the loop, the
updated call counter, and the round count. -/
def orchInner (planner : Nat → String) :
    Nat → Nat → Nat → String → Option (String × Nat × Nat)
  | 0, _, _, _ => none
  | Nat.succ fuel, idx, innerCnt, plan =>
    if should_continue_plan plan then
      orchInner planner fuel (idx + 1) (innerCnt + 1) (planner idx)
    else some (plan, idx, innerCnt)

/-- The outer loop of `RestGPT._call` (rest_gpt.py:146-188), fuel-indexed
(the Planner could say `Continue` forever; any fuel at least the number of
Planner calls of the run is enough).  `outerCnt` counts outer-loop body
entries.  Returns the run result together with the outer and inner body
counts. -/
def orchOuter (planner : Nat → String) (maxIterations : Nat) :
    Nat → Nat → Nat → Nat → Nat → String → Option (String × Nat × Nat)
  | 0, _, _, _, _, _ => none
  | Nat.succ fuel, idx, iterations, outerCnt, innerCnt, plan =>
    if should_continue (some maxIterations) iterations then
      let plan1 := planner idx
      match orchInner planner fuel (idx + 1) innerCnt plan1 with
      | none => none
      | some (plan2, idx2, innerCnt2) =>
        if should_end plan2 then some (plan2, outerCnt + 1, innerCnt2)
        else orchOuter planner maxIterations fuel idx2 (iterations + 1)
          (outerCnt + 1) innerCnt2 plan2
    else some (plan, outerCnt, innerCnt)

/-- `RestGPT._call` over a scripted Planner: the initial Planner call at
rest_gpt.py:143 then the outer loop, with `max_iterations` at its default
of 15 supplied by the caller. -/
def rest_gpt_call (planner : Nat → String) (maxIterations fuel : Nat) :
    Option (String × Nat × Nat) :=
  orchOuter planner maxIterations fuel 1 0 0 0 (planner 0)

/-- The scripted Planner of the claim: `"Continue"` on its first two calls
(indices 0 and 1) and `"Final Answer: done"` from the third on. -/
def scriptedPlanner : Nat → String :=
  fun i => if i ≤ 1 then "Continue" else "Final Answer: done"

/-! ## `src/model/parser.py` — the code-assisted `ResponseParser._call`

`PythonREPL.run` returns the captured standard output, or `None` when the
executed program raises (parser.py:162-174); `runProgram` is its oracle.
The LLM is split into the three prompt roles `_call` uses: the program
generated from the schema prompt (fixed within one call — its inputs do
not vary inside `_call`), the program generated from the raw-JSON prompt
(a function of the JSON snippet spliced in), and direct LLM extraction
(a function of the JSON payload spliced in).  `encode`/`decode` stand for
the tiktoken tokenizer. -/

/-- Oracles for one `ResponseParser._call` invocation. -/
structure ParserOracles where
  genSchemaCode : String
  genResponseCode : String → String
  llmParse : String → String
  runProgram : String → Option String
  encode : String → List Nat
  decode : List Nat → String
  postprocess : String → String

/-- The three escalating extraction strategies, in the order `_call`
attempts them. -/
inductive ParserTier where
  | schemaProgram
  | responseProgram
  | directLLM
  deriving DecidableEq, Repr

/-- `output is None or len(output) == 0` (parser.py:300 and 315). -/
def isEmptyOut : Option String → Bool
  | none => true
  | some s => s.isEmpty

/-- The output-length post-processing at parser.py:321-326: outputs longer
than 500 tokens are truncated and repaired by a dedicated prompt. -/
def postprocessOutput (o : ParserOracles) (out : String) : String :=
  let enc := o.encode out
  if enc.length > 500 then o.postprocess (o.decode (enc.take 500)) else out

/-- `ResponseParser._call` (parser.py:286-328), returning the result text
together with the trace of tiers attempted.  `hasSchemaPrompt` is whether
the constructor installed the code prompts (it leaves them `None` when the
endpoint document has no response schema); `query` is
`inputs["query"]`. -/
def response_parser_call (o : ParserOracles) (hasSchemaPrompt : Bool)
    (query : Option String) (jsonText : String) :
    Except PyErr (String × List ParserTier) :=
  if !hasSchemaPrompt || query.isNone then
    Except.ok (o.llmParse jsonText, [ParserTier.directLLM])
  else
    match pyJsonLoads jsonText with
    | none => Except.error PyErr.jsonDecode
    | some _ =>
      let out1 := o.runProgram o.genSchemaCode
      if isEmptyOut out1 then
        -- parser.py:300-313: generate a second program from a raw-JSON
        -- snippet capped at max_json_length_1 = 500 tokens
        let enc := o.encode jsonText
        let snippet :=
          if enc.length > 500 then o.decode (enc.take 500) ++ "..." else jsonText
        let out2 := o.runProgram (o.genResponseCode snippet)
        if isEmptyOut out2 then
          -- parser.py:315-319: direct LLM extraction over the JSON capped
          -- at max_json_length_2 = 2000 tokens (reusing the tier-2 snippet
          -- when not above that cap)
          let payload :=
            if enc.length > 2000 then o.decode (enc.take 2000) ++ "..." else snippet
          let out3 := o.llmParse payload
          Except.ok (postprocessOutput o out3,
            [ParserTier.schemaProgram, ParserTier.responseProgram,
              ParserTier.directLLM])
        else
          Except.ok (postprocessOutput o (out2.getD ""),
            [ParserTier.schemaProgram, ParserTier.responseProgram])
      else
        Except.ok (postprocessOutput o (out1.getD ""), [ParserTier.schemaProgram])

/-! ## `src/utils/oas_utils.py` — catalog reduction -/

/-- Python truthiness of a decoded JSON value (`if docs.get(...)`). -/
def numLexZero (lex : String) : Bool :=
  let mantissa := lex.data.takeWhile (fun c => c != 'e' && c != 'E')
  (mantissa.filter isDigitCh).all (fun c => c == '0')

/-- Python truthiness of a decoded JSON value. -/
def pyTruthy : JVal → Bool
  | JVal.null => false
  | JVal.bool b => b
  | JVal.num lex => !numLexZero lex
  | JVal.str s => !s.isEmpty
  | JVal.arr l => !l.isEmpty
  | JVal.obj f => !f.isEmpty

/-- `if docs.get(k):` — truthiness of an optional lookup. -/
def truthyGet (d : List (JKey × JVal)) (k : String) : Bool :=
  match dictGet d (JKey.s k) with
  | some v => pyTruthy v
  | none => false

/-- The parameter filter of `reduce_endpoint_docs`: with `only_required`,
keep parameters whose `required` field is truthy (`parameter.get` demands a
dict — anything else raises `AttributeError`); otherwise keep all. -/
def filterParameters (onlyRequired : Bool) :
    List JVal → Except PyErr (List JVal)
  | [] => Except.ok []
  | p :: rest =>
    if onlyRequired then
      match p with
      | JVal.obj pf =>
        match filterParameters onlyRequired rest with
        | Except.error e => Except.error e
        | Except.ok tail =>
          if truthyGet pf "required" then Except.ok (p :: tail)
          else Except.ok tail
      | _ => Except.error PyErr.attributeError
    else
      match filterParameters onlyRequired rest with
      | Except.error e => Except.error e
      | Except.ok tail => Except.ok (p :: tail)

/-- `reduce_endpoint_docs(docs)` (oas_utils.py:145-167).  A `responses`
value that is not a dict would hit Python's per-type `in` semantics; no
OpenAPI document has one, and the model reports the `TypeError` the
subsequent indexing would raise.  Note what the source does when the
`responses` dict exists but has no `"200"` (or `200`) entry: it simply
does not set `out["responses"]` — there is no error path. -/
def reduce_endpoint_docs (onlyRequired : Bool) (docs : List (JKey × JVal)) :
    Except PyErr (List (JKey × JVal)) :=
  let out : List (JKey × JVal) := []
  let out :=
    if truthyGet docs "description" then
      dictInsert out (JKey.s "description")
        ((dictGet docs (JKey.s "description")).getD JVal.null)
    else out
  let paramsStep : Except PyErr (List (JKey × JVal)) :=
    if truthyGet docs "parameters" then
      match (dictGet docs (JKey.s "parameters")).getD JVal.null with
      | JVal.arr ps =>
        match filterParameters onlyRequired ps with
        | Except.error e => Except.error e
        | Except.ok kept =>
          Except.ok (dictInsert out (JKey.s "parameters") (JVal.arr kept))
      | _ => Except.error PyErr.typeError
    else Except.ok out
  match paramsStep with
  | Except.error e => Except.error e
  | Except.ok out =>
    let out :=
      if truthyGet docs "requestBody" then
        dictInsert out (JKey.s "requestBody")
          ((dictGet docs (JKey.s "requestBody")).getD JVal.null)
      else out
    match dictGet docs (JKey.s "responses") with
    | none => Except.error (PyErr.keyError "responses")
    | some (JVal.obj rf) =>
      if dictHasKey rf (JKey.s "200") then
        Except.ok (dictInsert out (JKey.s "responses")
          ((dictGet rf (JKey.s "200")).getD JVal.null))
      else if dictHasKey rf (JKey.i 200) then
        Except.ok (dictInsert out (JKey.s "responses")
          ((dictGet rf (JKey.i 200)).getD JVal.null))
      else Except.ok out
    | some _ => Except.error PyErr.typeError

/-- `_retrieve_ref_path(path, full_spec)` (oas_utils.py:17-26). -/
def retrieveRefPath (path : String) (fullSpec : JVal) : Except PyErr JVal :=
  match pySplitChar '/' path with
  | [] => Except.error (PyErr.runtimeError "unreachable: split is never empty")
  | c0 :: rest =>
    if c0 ≠ "#" then
      Except.error (PyErr.runtimeError
        "All refs I have seen so far are uri fragments (start with hash).")
    else
      rest.foldlM
        (fun out comp =>
          match out with
          | JVal.obj fields =>
            match dictGet fields (JKey.s comp) with
            | some v => Except.ok v
            | none => Except.error (PyErr.keyError comp)
          | _ => Except.error PyErr.typeError)
        fullSpec

mutual

/-- `_dereference_refs(obj)` (oas_utils.py:28-51), fuel-indexed: the
source recursion can diverge on cyclic references (Python would hit its
recursion limit), which the fuel reports as `RecursionError`. -/
def derefGo (fullSpec : JVal) : Nat → JVal → Except PyErr JVal
  | 0, _ => Except.error PyErr.recursionError
  | Nat.succ f, v =>
    match v with
    | JVal.obj fields => derefFields fullSpec f fields []
    | JVal.arr es =>
      match derefList fullSpec f es with
      | Except.ok es2 => Except.ok (JVal.arr es2)
      | Except.error e => Except.error e
    | other => Except.ok other

/-- The dict branch of `_dereference_refs`: keys in order; a `$ref` key
discards what was rebuilt so far and returns the (recursively
dereferenced) target. -/
def derefFields (fullSpec : JVal) :
    Nat → List (JKey × JVal) → List (JKey × JVal) → Except PyErr JVal
  | 0, _, _ => Except.error PyErr.recursionError
  | Nat.succ _, [], acc => Except.ok (JVal.obj acc)
  | Nat.succ f, (k, v) :: rest, acc =>
    if k == JKey.s "$ref" then
      match v with
      | JVal.str path =>
        match retrieveRefPath path fullSpec with
        | Except.error e => Except.error e
        | Except.ok target => derefGo fullSpec f target
      | _ => Except.error PyErr.attributeError
    else
      match v with
      | JVal.arr es =>
        match derefList fullSpec f es with
        | Except.error e => Except.error e
        | Except.ok es2 => derefFields fullSpec f rest (acc ++ [(k, JVal.arr es2)])
      | JVal.obj _ =>
        match derefGo fullSpec f v with
        | Except.error e => Except.error e
        | Except.ok v2 => derefFields fullSpec f rest (acc ++ [(k, v2)])
      | _ => derefFields fullSpec f rest (acc ++ [(k, v)])

/-- The list branch of `_dereference_refs`. -/
def derefList (fullSpec : JVal) : Nat → List JVal → Except PyErr (List JVal)
  | 0, _ => Except.error PyErr.recursionError
  | Nat.succ _, [] => Except.ok []
  | Nat.succ f, v :: rest =>
    match derefGo fullSpec f v with
    | Except.error e => Except.error e
    | Except.ok v2 =>
      match derefList fullSpec f rest with
      | Except.error e => Except.error e
      | Except.ok rest2 => Except.ok (v2 :: rest2)

end

/-- `dict.update`: insert every pair of `e` into `d`. -/
def dictUpdate (d e : List (JKey × JVal)) : List (JKey × JVal) :=
  e.foldl (fun acc p => dictInsert acc p.1 p.2) d

mutual

/-- `merge(to_merge)` inside `merge_allof_properties`
(oas_utils.py:57-70), carrying the `properties`/`required` accumulators of
the `merged` dict it builds. -/
def mergeSchemas (fuel : Nat) (toMerge : List JVal)
    (props : List (JKey × JVal)) (req : List JVal) :
    Except PyErr (List (JKey × JVal) × List JVal) :=
  match fuel with
  | 0 => Except.error PyErr.recursionError
  | Nat.succ f =>
    match toMerge with
    | [] => Except.ok (props, req)
    | ps :: rest =>
      match ps with
      | JVal.obj pf =>
        if dictHasKey pf (JKey.s "allOf") then
          match (dictGet pf (JKey.s "allOf")).getD JVal.null with
          | JVal.arr items =>
            match mergeSchemas f items [] [] with
            | Except.error e => Except.error e
            | Except.ok (tp, tr) =>
              mergeSchemas f rest (dictUpdate props tp) (req ++ tr)
          | _ => Except.error PyErr.typeError
        else
          let step1 : Except PyErr (List (JKey × JVal)) :=
            if dictHasKey pf (JKey.s "properties") then
              match (dictGet pf (JKey.s "properties")).getD JVal.null with
              | JVal.obj pp => Except.ok (dictUpdate props pp)
              | _ => Except.error PyErr.typeError
            else Except.ok props
          match step1 with
          | Except.error e => Except.error e
          | Except.ok props1 =>
            if dictHasKey pf (JKey.s "required") then
              match (dictGet pf (JKey.s "required")).getD JVal.null with
              | JVal.arr r => mergeSchemas f rest props1 (req ++ r)
              | _ => Except.error PyErr.typeError
            else mergeSchemas f rest props1 req
      | _ => Except.error PyErr.typeError

/-- `_merge_allof(obj)` (oas_utils.py:72-88), fuel-indexed like the
dereferencer. -/
def mergeAllofGo : Nat → JVal → Except PyErr JVal
  | 0, _ => Except.error PyErr.recursionError
  | Nat.succ f, v =>
    match v with
    | JVal.obj fields => mergeAllofFields f fields []
    | JVal.arr es =>
      match mergeAllofList f es with
      | Except.ok es2 => Except.ok (JVal.arr es2)
      | Except.error e => Except.error e
    | other => Except.ok other

/-- The dict branch of `_merge_allof`: an `allOf` key replaces the whole
dict by the recursively processed merge of its schema list. -/
def mergeAllofFields :
    Nat → List (JKey × JVal) → List (JKey × JVal) → Except PyErr JVal
  | 0, _, _ => Except.error PyErr.recursionError
  | Nat.succ _, [], acc => Except.ok (JVal.obj acc)
  | Nat.succ f, (k, v) :: rest, acc =>
    if k == JKey.s "allOf" then
      match v with
      | JVal.arr items =>
        match mergeSchemas f items [] [] with
        | Except.error e => Except.error e
        | Except.ok (props, req) =>
          mergeAllofGo f (JVal.obj
            [(JKey.s "properties", JVal.obj props),
              (JKey.s "required", JVal.arr req),
              (JKey.s "type", JVal.str "object")])
      | _ => Except.error PyErr.typeError
    else
      match v with
      | JVal.arr es =>
        match mergeAllofList f es with
        | Except.error e => Except.error e
        | Except.ok es2 => mergeAllofFields f rest (acc ++ [(k, JVal.arr es2)])
      | JVal.obj _ =>
        match mergeAllofGo f v with
        | Except.error e => Except.error e
        | Except.ok v2 => mergeAllofFields f rest (acc ++ [(k, v2)])
      | _ => mergeAllofFields f rest (acc ++ [(k, v)])

/-- The list branch of `_merge_allof`. -/
def mergeAllofList : Nat → List JVal → Except PyErr (List JVal)
  | 0, _ => Except.error PyErr.recursionError
  | Nat.succ _, [] => Except.ok []
  | Nat.succ f, v :: rest =>
    match mergeAllofGo f v with
    | Except.error e => Except.error e
    | Except.ok v2 =>
      match mergeAllofList f rest with
      | Except.error e => Except.error e
      | Except.ok rest2 => Except.ok (v2 :: rest2)

end

/-- `str.upper()` for canonical endpoint names (ASCII). -/
def pyUpper (s : String) : String := String.mk (s.data.map Char.toUpper)

/-- The rendered form of a dict key in an f-string. -/
def keyText : JKey → String
  | JKey.s s => s
  | JKey.i n => toString n

/-- The operation names step 1 of `reduce_openapi_spec` keeps. -/
def keptOperations : List String := ["get", "post", "patch", "delete", "put"]

/-- One catalog entry: canonical name, the operation's own description
(`docs.get("description")`, `JVal.null` when absent), and the reduced
document. -/
structure CatalogEntry where
  name : String
  description : JVal
  docs : List (JKey × JVal)

/-- The result type of `reduce_openapi_spec` (the `ReducedOpenAPISpec`
dataclass): `servers` and `description` are stored as the raw values the
source takes out of the document. -/
structure ReducedSpec where
  servers : JVal
  description : JVal
  endpoints : List CatalogEntry

/-- Step 1 of `reduce_openapi_spec`: select `get/post/patch/delete/put`
operations under each path, in document order.  Non-dict operation tables
raise (`.items()`), non-dict operation docs raise (`.get`);
non-string operation keys never equal a kept method name and are
skipped. -/
def selectOperations (paths : List (JKey × JVal)) :
    Except PyErr (List (String × JVal × JVal)) :=
  paths.foldlM
    (fun acc rp =>
      match rp.2 with
      | JVal.obj ops =>
        ops.foldlM
          (fun acc2 od =>
            if keptOperations.contains (keyText od.1) then
              match od.2 with
              | JVal.obj docFields =>
                Except.ok (acc2 ++
                  [(pyUpper (keyText od.1) ++ " " ++ keyText rp.1,
                    (dictGet docFields (JKey.s "description")).getD JVal.null,
                    od.2)])
              | _ => Except.error PyErr.attributeError
            else Except.ok acc2)
          acc
      | _ => Except.error PyErr.attributeError)
    []

/-- `reduce_openapi_spec(spec, dereference, only_required, merge_allof)`
(oas_utils.py:100-177).  `fuel` bounds the two recursive rewrites exactly
as Python's recursion limit does. -/
def reduce_openapi_spec (fuel : Nat) (spec : List (JKey × JVal))
    (dereference onlyRequired mergeAllof : Bool) : Except PyErr ReducedSpec :=
  match dictGet spec (JKey.s "paths") with
  | none => Except.error (PyErr.keyError "paths")
  | some pathsV =>
    match pathsV with
    | JVal.obj paths =>
      match selectOperations paths with
      | Except.error e => Except.error e
      | Except.ok selected =>
        let derefStep : Except PyErr (List (String × JVal × JVal)) :=
          if dereference then
            selected.mapM (fun ent =>
              match derefGo (JVal.obj spec) fuel ent.2.2 with
              | Except.error e => Except.error e
              | Except.ok d => Except.ok (ent.1, ent.2.1, d))
          else Except.ok selected
        match derefStep with
        | Except.error e => Except.error e
        | Except.ok ents1 =>
          let mergeStep : Except PyErr (List (String × JVal × JVal)) :=
            if mergeAllof then
              ents1.mapM (fun ent =>
                match mergeAllofGo fuel ent.2.2 with
                | Except.error e => Except.error e
                | Except.ok d => Except.ok (ent.1, ent.2.1, d))
            else Except.ok ents1
          match mergeStep with
          | Except.error e => Except.error e
          | Except.ok ents2 =>
            match ents2.mapM (fun ent =>
                match ent.2.2 with
                | JVal.obj docFields =>
                  match reduce_endpoint_docs onlyRequired docFields with
                  | Except.error e => Except.error e
                  | Except.ok reduced =>
                    Except.ok (CatalogEntry.mk ent.1 ent.2.1 reduced)
                | _ => Except.error PyErr.attributeError) with
            | Except.error e => Except.error e
            | Except.ok endpoints =>
              match dictGet spec (JKey.s "servers") with
              | none => Except.error (PyErr.keyError "servers")
              | some servers =>
                match dictGet spec (JKey.s "info") with
                | none => Except.error (PyErr.keyError "info")
                | some (JVal.obj infoFields) =>
                  Except.ok (ReducedSpec.mk servers
                    ((dictGet infoFields (JKey.s "description")).getD
                      (JVal.str ""))
                    endpoints)
                | some _ => Except.error PyErr.attributeError
    | _ => Except.error PyErr.attributeError

/-! ## Concrete instances used by the theorems -/

/-- A non-success HTTP response body (length ≠ 5). -/
def errBody : String := "\x7b\"status_message\": \"not found\"\x7d"

/-- A success HTTP response body. -/
def okBody : String := "\x7b\"ok\": true\x7d"

/-- A wrapper whose every verb answers status 404 with `errBody`. -/
def notFoundWrapper : RequestsWrapper :=
  RequestsWrapper.mk
    (fun _ _ => WrapperRet.response 404 errBody)
    (fun _ _ _ => WrapperRet.response 404 errBody)
    (fun _ _ _ => WrapperRet.response 404 errBody)
    (fun _ _ _ => WrapperRet.response 404 errBody)

/-- A wrapper whose every verb answers status 200 with `okBody`. -/
def okWrapper : RequestsWrapper :=
  RequestsWrapper.mk
    (fun _ _ => WrapperRet.response 200 okBody)
    (fun _ _ _ => WrapperRet.response 200 okBody)
    (fun _ _ _ => WrapperRet.response 200 okBody)
    (fun _ _ _ => WrapperRet.response 200 okBody)

/-- A well-formed Caller `Input:` JSON payload. -/
def sampleCallInput : String := "\x7b\"url\": \"https://api.example.com/x\"\x7d"

/-- The one-name catalog of the endpoint-matcher claim. -/
def movieCatalog : List String := ["GET /movie/\x7bmovie_id\x7d/credits"]

/-- The missing-comma JSON-repair input of the claim. -/
def missingCommaInput : String := "\x7b\n  \"a\": 1\n  \"b\": 2\n\x7d"

/-- A scripted LLM turn that always requests the same GET call and never
contains `"Execution Result:"`. -/
def scriptedTurn : String := "Operation: GET\nInput: \x7b\"url\": \"u\"\x7d"

/-- A Caller LLM oracle repeating `scriptedTurn` each turn. -/
def llmScripted : Nat → String := fun _ => scriptedTurn

/-- A turn-body oracle that always succeeds. -/
def executeOk : Nat → String → String → Except PyErr String :=
  fun _ _ _ => Except.ok "parsed"

/-- An operation document whose `responses` has only a 404 entry. -/
def docs404 : List (JKey × JVal) :=
  [(JKey.s "responses", JVal.obj [(JKey.s "404", JVal.str "nf")])]

/-- A minimal OpenAPI document whose single included operation has no 200
response. -/
def spec404 : List (JKey × JVal) :=
  [(JKey.s "servers",
      JVal.arr [JVal.obj [(JKey.s "url", JVal.str "https://api")]]),
    (JKey.s "info", JVal.obj []),
    (JKey.s "paths",
      JVal.obj [(JKey.s "/a", JVal.obj [(JKey.s "get", JVal.obj docs404)])])]

/-- Parser oracles where the schema-based program raises and the
raw-JSON-based program prints nothing. -/
def parserOraclesW : ParserOracles :=
  ParserOracles.mk "S" (fun j => "R" ++ j) (fun j => "LLM " ++ j)
    (fun c => if c == "S" then none else some "")
    (fun s => s.data.map Char.toNat)
    (fun l => String.mk (l.map Char.ofNat))
    (fun s => s)

/-! ## Theorems for the claims -/

/-- C1: the claim says a non-200 response still yields the full
`(response, params, request_body, description, output_instructions)` result
fed to the Response Parser, the raw text in `response`.  The code does not:
`_get_response` returns the bare text alone on a non-200 status
(caller.py:233-234), and the five-way unpacking at caller.py:290 then
raises `ValueError` (the body here is not 5 characters long) instead of
reaching the parser — while a 200 response does produce the five-value
result.  This contradicts both the spec and the only call site, which is a
code bug. -/
theorem nonSuccessBreaksUnpack :
    get_response notFoundWrapper "GET" sampleCallInput =
      Except.ok (GetResponseRet.bare errBody) ∧
    (get_response notFoundWrapper "GET" sampleCallInput >>= unpack5) =
      Except.error (PyErr.valueError "values to unpack") ∧
    (get_response okWrapper "GET" sampleCallInput >>= unpack5) =
      Except.ok (JVal.str okBody, JVal.null, JVal.null,
        JVal.str "No description", JVal.null) :=
  ⟨rfl, rfl, rfl⟩

/-- C2 counterexample: with the scripted Planner (two `"Continue"` turns,
then `"Final Answer: done"`), the run does not perform two inner
continuation rounds — the trace is one outer iteration with one inner
round, so the claimed count of 2 is wrong. -/
theorem orchestratorNotTwoInnerRounds :
    rest_gpt_call scriptedPlanner 15 100 ≠ some ("Final Answer: done", 1, 2) := by
  decide

/-- C2 (amended): with the scripted Planner returning `"Continue"` on its
first two calls and `"Final Answer: done"` on its third, the run performs
exactly one outer iteration containing one inner continuation round (the
first `"Continue"` is consumed by the outer-loop body; only the second
drives the inner loop) and the result is `"Final Answer: done"`. -/
theorem orchestratorScriptedRun :
    rest_gpt_call scriptedPlanner 15 100 = some ("Final Answer: done", 1, 1) := by
  decide

/-- C4: a turn containing `"Execution Result:"` parses as the terminal
result — the text after the last occurrence, stripped — regardless of any
Operation/Input present; otherwise the Operation/Input shape applies and a
parsed Operation outside GET/POST/DELETE/PUT fails with
`NotImplementedError`. -/
theorem turnParsing (s : String) :
    (strContains s "Execution Result:" = true →
      get_action_and_input s =
        Except.ok (ActionOrResult.executionResult
          (pyStrip (afterLastSub s "Execution Result:")))) ∧
    (strContains s "Execution Result:" = false →
      ∀ g1 g2, regexOperationInput s = some (g1, g2) →
        allowedMethods.contains (pyStrip g1) = false →
        get_action_and_input s = Except.error PyErr.notImplemented) := by
  constructor
  · intro h
    simp [get_action_and_input, h]
  · intro h g1 g2 hm hnotin
    unfold get_action_and_input
    rw [h, hm]
    simp only [Bool.false_eq_true, if_false, hnotin, Bool.not_false, if_true]

/-- C4 witness: the two branches at concrete turns — a terminal turn that
also carries an Operation/Input, and a `PATCH` turn. -/
theorem turnParsingWitness :
    get_action_and_input
        "Operation: GET\nInput: \x7b\x7d Execution Result: done" =
      Except.ok (ActionOrResult.executionResult "done") ∧
    get_action_and_input "Operation: PATCH\nInput: \x7b\x7d" =
      Except.error PyErr.notImplemented :=
  ⟨(turnParsing _).1 rfl,
    (turnParsing _).2 rfl "PATCH" (String.mk [obrace, cbrace]) rfl rfl⟩

/-- C5: over a catalog containing `"GET /movie/(movie_id)/credits"` (braces
in the actual name), the text `"GET /movie/18329/credits to get credits"`
matches that canonical name; `"GET /movie/18329/credits/extra"` does not
match (the instantiated pattern is anchored at the end and placeholders
match only non-slash segments); a mentioned endpoint absent from the
catalog gives the no-match sentinel `none`. -/
theorem endpointMatching :
    get_matched_endpoint movieCatalog
        "GET /movie/18329/credits to get credits" =
      some ["GET /movie/\x7bmovie_id\x7d/credits"] ∧
    get_matched_endpoint movieCatalog "GET /movie/18329/credits/extra" =
      none ∧
    get_matched_endpoint movieCatalog "GET /tv/18329/credits to get credits" =
      none :=
  ⟨rfl, rfl, rfl⟩

/-- C8 counterexample: the claim accepts case-insensitive aliases of the
two services, but the constructor only special-cases the exact spellings
`"TMDB"`, `"Tmdb"` and `"Spotify"`: the case variant `"SPOTIFY"` raises the
configuration error instead of normalizing. -/
theorem scenarioUppercaseSpotifyRejected :
    normalize_scenario "SPOTIFY" =
      Except.error (PyErr.valueError "Invalid scenario SPOTIFY") := rfl

/-- C8 (amended): exactly the spellings `"tmdb"`, `"TMDB"`, `"Tmdb"`,
`"spotify"`, `"Spotify"` are accepted at construction — in particular
`"Tmdb"` normalizes to the movie service — and every other value
(including other case variants such as `"SPOTIFY"`) raises the
configuration error before anything else runs. -/
theorem scenarioValidation :
    normalize_scenario "Tmdb" = Except.ok "tmdb" ∧
    normalize_scenario "TMDB" = Except.ok "tmdb" ∧
    normalize_scenario "tmdb" = Except.ok "tmdb" ∧
    normalize_scenario "Spotify" = Except.ok "spotify" ∧
    normalize_scenario "spotify" = Except.ok "spotify" ∧
    ∀ s : String,
      s ∉ (["tmdb", "TMDB", "Tmdb", "spotify", "Spotify"] : List String) →
      normalize_scenario s =
        Except.error (PyErr.valueError ("Invalid scenario " ++ s)) := by
  refine ⟨rfl, rfl, rfl, rfl, rfl, ?_⟩
  intro s hs
  simp only [List.mem_cons, List.mem_singleton, not_or] at hs
  obtain ⟨h1, h2, h3, h4, h5⟩ := hs
  simp [normalize_scenario, h1, h2, h3, h4, h5]

/-- C8 witness: the amended theorem applied at the concrete value
`"unknown"`. -/
theorem scenarioValidationWitness :
    normalize_scenario "unknown" =
      Except.error (PyErr.valueError "Invalid scenario unknown") :=
  scenarioValidation.2.2.2.2.2 "unknown" (by decide)

/-- C9: the object with a missing comma between its two members repairs to
a string that decodes to the two-member object, and any input that already
decodes as JSON after the trimming chain is returned as is. -/
theorem jsonRepair :
    fix_json_error missingCommaInput =
      Except.ok "\x7b \"a\": 1, \"b\": 2 \x7d" ∧
    pyJsonLoads "\x7b \"a\": 1, \"b\": 2 \x7d" =
      some (JVal.obj
        [(JKey.s "a", JVal.num "1"), (JKey.s "b", JVal.num "2")]) ∧
    ∀ d : String, (pyJsonLoads (fixJsonTrim d)).isSome = true →
      fix_json_error d = Except.ok (fixJsonTrim d) := by
  refine ⟨rfl, rfl, ?_⟩
  intro d h
  obtain ⟨v, hv⟩ := Option.isSome_iff_exists.mp h
  simp [fix_json_error, hv]

/-- C9 witness: the already-valid-JSON branch at the concrete input
`"[1, 2]"`. -/
theorem jsonRepairWitness :
    fix_json_error "[1, 2]" = Except.ok "[1, 2]" :=
  jsonRepair.2.2 "[1, 2]" rfl

/-- C10: the JSON repair is not total — on the single-line input `"a"`,
which does not parse as JSON and whose only line is not bracket-shaped, the
repair loop reads one past the end of the line list and raises
`IndexError`. -/
theorem jsonRepairIndexError :
    fix_json_error "a" = Except.error PyErr.indexError := rfl

/-- Helper for the Caller-budget theorem: once every remaining turn parses
to a supported action and its body succeeds, the loop runs its fuel down
and returns the last turn's raw text with the final iteration count. -/
lemma callerLoopGo_budget (execute : Nat → String → String → Except PyErr String)
    (llm : Nat → String) (n : Nat)
    (hact : ∀ i, i < n → ∃ a inp r,
      get_action_and_input (llm i) = Except.ok (ActionOrResult.action a inp) ∧
      execute i a inp = Except.ok r) :
    ∀ f i last, i + f = n → 0 < f →
      callerLoopGo execute llm n f i last = Except.ok (llm (n - 1), n) := by
  intro f
  induction f with
  | zero => intro i last _ h0; exact absurd h0 (by omega)
  | succ f ih =>
    intro i last hsum _
    have hi : i < n := by omega
    obtain ⟨a, inp, r, hai, hex⟩ := hact i hi
    have hguard : should_continue (some n) i = true := by
      simp [should_continue, hi]
    simp only [callerLoopGo, hguard, if_true, hai, hex]
    cases f with
    | zero =>
      have hin : i + 1 = n := by omega
      have hlm : i = n - 1 := by omega
      simp only [callerLoopGo]
      rw [hin, hlm]
    | succ f2 => exact ih (i + 1) (some (llm i)) (by omega) (by omega)

/-- C3: a Caller run with `max_iterations = n` (and no wall-clock budget)
in which no LLM turn contains `"Execution Result:"` — every turn parsing
to a supported Operation/Input whose body succeeds — performs exactly `n`
turns and returns the `n`-th turn's raw LLM text as the result. -/
theorem callerBudgetExhaustion (n : Nat) (llm : Nat → String)
    (execute : Nat → String → String → Except PyErr String)
    (hn : 1 ≤ n)
    (hter : ∀ i, i < n → strContains (llm i) "Execution Result:" = false)
    (hact : ∀ i, i < n → ∃ a inp r,
      get_action_and_input (llm i) = Except.ok (ActionOrResult.action a inp) ∧
      execute i a inp = Except.ok r) :
    caller_call execute llm n = Except.ok (llm (n - 1), n) := by
  have := hter
  exact callerLoopGo_budget execute llm n hact n 0 none (by omega) (by omega)

/-- C3 witness: two scripted turns that never emit `"Execution Result:"`
with `max_iterations = 2` — the loop stops after turn 2 and returns that
turn's raw text. -/
theorem callerBudgetExhaustionWitness :
    caller_call executeOk llmScripted 2 = Except.ok (scriptedTurn, 2) :=
  callerBudgetExhaustion 2 llmScripted executeOk (by omega)
    (fun _ _ =>
      show strContains scriptedTurn "Execution Result:" = false by decide)
    (fun _ _ => ⟨"GET", "\x7b\"url\": \"u\"\x7d", "parsed",
      show get_action_and_input scriptedTurn =
        Except.ok (ActionOrResult.action "GET" "\x7b\"url\": \"u\"\x7d")
        by decide, rfl⟩)

/-- C6: with extraction instructions present and the schema-based generated
program raising on execution (captured output `None`), the code-assisted
parser next attempts the raw-JSON-based generated program, and falls back
to direct LLM extraction over the (possibly truncated) raw JSON exactly
when that program's output is empty or absent — the tier trace is
`[schemaProgram, responseProgram]` plus `directLLM` in that case. -/
theorem parserFallbackOrdering (o : ParserOracles) (q jsonText : String)
    (hjson : (pyJsonLoads jsonText).isSome = true)
    (hraise : o.runProgram o.genSchemaCode = none) :
    response_parser_call o true (some q) jsonText =
      (let enc := o.encode jsonText
       let snippet :=
         if enc.length > 500 then o.decode (enc.take 500) ++ "..." else jsonText
       let out2 := o.runProgram (o.genResponseCode snippet)
       if isEmptyOut out2 then
         Except.ok (postprocessOutput o (o.llmParse
             (if enc.length > 2000 then o.decode (enc.take 2000) ++ "..."
              else snippet)),
           [ParserTier.schemaProgram, ParserTier.responseProgram,
             ParserTier.directLLM])
       else
         Except.ok (postprocessOutput o (out2.getD ""),
           [ParserTier.schemaProgram, ParserTier.responseProgram])) := by
  obtain ⟨v, hv⟩ := Option.isSome_iff_exists.mp hjson
  simp [response_parser_call, hv, hraise, isEmptyOut]

set_option maxHeartbeats 2000000 in
/-- C6 witness: oracles where the schema program raises and the raw-JSON
program prints nothing — the result is the direct-LLM text and the trace
shows all three tiers in order. -/
theorem parserFallbackOrderingWitness :
    response_parser_call parserOraclesW true (some "q") "\x7b\x7d" =
      Except.ok ("LLM \x7b\x7d",
        [ParserTier.schemaProgram, ParserTier.responseProgram,
          ParserTier.directLLM]) :=
  parserFallbackOrdering parserOraclesW "q" "\x7b\x7d" rfl rfl

/-- C7 counterexample: a catalog built from a document whose only included
operation has no 200 response — construction succeeds (no fatal error) and
yields a partial catalog whose entry simply lacks the response schema,
contradicting the claimed fatal construction error. -/
theorem missing200NotFatal :
    reduce_openapi_spec 1000 spec404 true false false =
      Except.ok (ReducedSpec.mk
        (JVal.arr [JVal.obj [(JKey.s "url", JVal.str "https://api")]])
        (JVal.str "")
        [CatalogEntry.mk "GET /a" JVal.null []]) := rfl

/-- `dictHasKey` of the empty dict. -/
lemma dictHasKey_nil (k : JKey) :
    dictHasKey ([] : List (JKey × JVal)) k = false := rfl

/-- Overwriting the value at key `k` does not change which other keys a
dict has. -/
lemma any_key_map_overwrite (t : List (JKey × JVal)) (k k' : JKey) (v : JVal) :
    ((t.map (fun p => if p.1 == k then (k, v) else p)).any
      (fun p => p.1 == k')) = t.any (fun p => p.1 == k') := by
  induction t with
  | nil => rfl
  | cons p t ih =>
    simp only [List.map_cons, List.any_cons, ih]
    by_cases hp : (p.1 == k) = true
    · have hpk : p.1 = k := eq_of_beq hp
      simp [hp, hpk]
    · simp [hp]

/-- `dictInsert` at `k` does not change membership of a different key. -/
lemma dictHasKey_dictInsert (d : List (JKey × JVal)) (k : JKey) (v : JVal)
    (k' : JKey) (h : (k == k') = false) :
    dictHasKey (dictInsert d k v) k' = dictHasKey d k' := by
  by_cases hk : dictHasKey d k = true
  · rw [dictInsert, if_pos hk]
    exact any_key_map_overwrite d k k' v
  · rw [dictInsert, if_neg hk]
    unfold dictHasKey
    rw [List.any_append]
    simp [h]

/-- A conditional `dictInsert` at a different key preserves key
absence. -/
lemma dictHasKey_ite_insert (cond : Bool) (d : List (JKey × JVal))
    (k : JKey) (v : JVal) (k' : JKey) (h : (k == k') = false)
    (hd : dictHasKey d k' = false) :
    dictHasKey (if cond then dictInsert d k v else d) k' = false := by
  cases cond with
  | false => simpa using hd
  | true => simpa [dictHasKey_dictInsert d k v k' h] using hd

/-- C7 (amended): an included operation whose `responses` dict has no
`"200"` (or numeric `200`) entry does not make `reduce_endpoint_docs`
fail; whenever reduction of such a document succeeds, its output simply
has no `responses` key — the response schema is silently omitted. -/
theorem missing200SilentlyOmitted (onlyRequired : Bool)
    (docs rf out : List (JKey × JVal))
    (hrsp : dictGet docs (JKey.s "responses") = some (JVal.obj rf))
    (h200s : dictHasKey rf (JKey.s "200") = false)
    (h200i : dictHasKey rf (JKey.i 200) = false)
    (hok : reduce_endpoint_docs onlyRequired docs = Except.ok out) :
    dictHasKey out (JKey.s "responses") = false := by
  simp only [reduce_endpoint_docs, hrsp, h200s, h200i] at hok
  split at hok
  · exact Except.noConfusion hok
  · rename_i out1 heq
    cases hok
    apply dictHasKey_ite_insert
    · decide
    · split at heq
      · split at heq
        · split at heq
          · exact Except.noConfusion heq
          · cases heq
            rw [dictHasKey_dictInsert _ _ _ _ (by decide)]
            exact dictHasKey_ite_insert _ _ _ _ _ (by decide) rfl
        · exact Except.noConfusion heq
      · cases heq
        exact dictHasKey_ite_insert _ _ _ _ _ (by decide) rfl

/-- C7 witness: the amended theorem applied to the concrete 404-only
operation document, whose reduction succeeds with an empty output dict. -/
theorem missing200SilentlyOmittedWitness :
    dictHasKey ([] : List (JKey × JVal)) (JKey.s "responses") = false :=
  missing200SilentlyOmitted true docs404 [(JKey.s "404", JVal.str "nf")] []
    rfl rfl rfl rfl

end RestGPT
